import Mathlib

/-!
# Huion H610 Pro v2 tablet driver (`huion.c`)

A shallow embedding of the driver's packet path (`huion_process_packet`,
`huion_irq_in`), of attach (`huion_probe`, `huion_init`) and of detach
(`huion_disconnect`).

Calls into the kernel (input core, USB core, allocators) are recorded as a
trace of `Effect`s, in program order.  Results the kernel hands back (the
status of a completion, whether an allocation succeeded, the return value of
a registration or of a resubmission) are inputs of the embedded functions.
-/

namespace Huion

/-! ## Constants of `huion.c` -/

def PACKET_MAX : Nat := 64

def POS_X_MIN : Nat := 0x0003
def POS_X_MAX : Nat := 0xC670
def POS_Y_MIN : Nat := 0x0002
def POS_Y_MAX : Nat := 0x7C06
def PEN_PRESSURE_MIN : Nat := 0x0000
def PEN_PRESSURE_MAX : Nat := 0x1FFF
def TILT_X_MIN : Nat := 0xC4
def TILT_X_MAX : Nat := 0x3C
def TILT_Y_MIN : Nat := 0xC4
def TILT_Y_MAX : Nat := 0x3C

def PEN_STATE_BYTE : Fin 64 := 1
def PEN_DOWN_MASK : Nat := 0x1
def PEN_BUTTON_1_MASK : Nat := 0x2
def PEN_BUTTON_2_MASK : Nat := 0x4

/-! ## Constants of the kernel headers the driver uses -/

/-- Error numbers of `asm-generic/errno-base.h` and `asm-generic/errno.h`. -/
def ENOENT : Int := 2
def ENOMEM : Int := 12
def ENODEV : Int := 19
def ECONNRESET : Int := 104
def ESHUTDOWN : Int := 108

/-- Endpoint descriptor constants of `linux/usb/ch9.h`. -/
def USB_DIR_IN : Nat := 0x80
def USB_ENDPOINT_XFERTYPE_MASK : Nat := 0x03
def USB_ENDPOINT_XFER_INT : Nat := 3

/-- Event types of `linux/input-event-codes.h` the driver names. -/
inductive EvType where
  | EV_KEY
  | EV_ABS
  deriving DecidableEq, Repr

/-- Event codes of `linux/input-event-codes.h` the driver names. -/
inductive Code where
  | BTN_TOOL_PEN
  | BTN_STYLUS
  | ABS_X
  | ABS_Y
  | ABS_PRESSURE
  | ABS_TILT_X
  | ABS_TILT_Y
  deriving DecidableEq, Repr

/-! ## Effects -/

/-- One call into the kernel, with the arguments that matter.  The three
allocators carry whether the call returned a non-NULL pointer,
`input_register_device` carries its return value, `usb_set_intfdata` carries
whether the stored pointer is non-NULL. -/
inductive Effect where
  | print_hex_dump (bytes : List Nat)
  | input_report_key (code : Code) (value : Int)
  | input_report_abs (code : Code) (value : Int)
  | input_sync
  | usb_submit_urb
  | dev_err (retval : Int)
  | kzalloc (ok : Bool)
  | usb_make_path
  | strlcat
  | usb_alloc_coherent (ok : Bool)
  | usb_alloc_urb (ok : Bool)
  | usb_fill_int_urb (bEndpointAddress : Nat) (bInterval : Nat)
  | usb_set_intfdata (nonnull : Bool)
  | input_allocate_device (ok : Bool)
  | usb_to_input_id
  | input_set_drvdata
  | input_set_capability (type : EvType) (code : Code)
  | input_set_abs_params (code : Code) (min max fuzz flat : Int)
  | input_abs_set_res (code : Code) (res : Int)
  | input_register_device (retval : Int)
  | input_free_device
  | usb_kill_urb
  | input_unregister_device
  | usb_free_urb
  | usb_free_coherent
  | kfree
  deriving DecidableEq, Repr

/-- The effects that are input events: key, absolute axis, sync. -/
def Effect.isInputEvent : Effect → Bool
  | .input_report_key _ _ => true
  | .input_report_abs _ _ => true
  | .input_sync => true
  | _ => false

/-- The input events of a trace, in order. -/
def inputEvents (tr : List Effect) : List Effect :=
  tr.filter Effect.isInputEvent

/-- The effects that cancel, unregister or free something. -/
def Effect.isTeardown : Effect → Bool
  | .usb_kill_urb => true
  | .input_unregister_device => true
  | .input_free_device => true
  | .usb_free_urb => true
  | .usb_free_coherent => true
  | .kfree => true
  | _ => false

/-! ## The packet path -/

/-- The packet buffer `htab->idata`: `PACKET_MAX` bytes of `unsigned char`. -/
abbrev Packet := Fin 64 → Fin 256

/-- `huion_process_packet`, lines 48-75.  `data[i]` is an `unsigned char`
promoted to `int`, so `data[3] << 8` is at most `0xFF00` and the OR at most
`0xFFFF`: the conversions to `unsigned int` and back to the `int value` of
`input_report_abs` keep the number. -/
def huion_process_packet (data : Packet) : List Effect :=
  Effect.print_hex_dump
      [(data 0).val, (data 1).val, (data 2).val, (data 3).val, (data 4).val, (data 5).val,
       (data 6).val, (data 7).val, (data 8).val, (data 9).val, (data 10).val, (data 11).val] ::
    if (data 1).val = 0xE0 then
      []
    else
      let pen_state : Nat := (data PEN_STATE_BYTE).val
      let x : Nat := (data 2).val ||| ((data 3).val <<< 8)
      let y : Nat := (data 4).val ||| ((data 5).val <<< 8)
      [ Effect.input_report_key Code.BTN_TOOL_PEN ((pen_state &&& PEN_DOWN_MASK : Nat) : Int),
        Effect.input_report_abs Code.ABS_X ((max x POS_X_MIN : Nat) : Int),
        Effect.input_report_abs Code.ABS_Y ((max y POS_Y_MIN : Nat) : Int),
        Effect.input_report_abs Code.ABS_PRESSURE
          (((data 6).val ||| ((data 7).val <<< 8) : Nat) : Int),
        Effect.input_report_abs Code.ABS_TILT_X (((data 10).val : Nat) : Int),
        Effect.input_report_abs Code.ABS_TILT_Y (((data 11).val : Nat) : Int),
        Effect.input_sync ]

/-- `huion_irq_in`, lines 78-103.  `status` is `urb->status`, `data` the
buffer the transfer filled, `submit_ret` what `usb_submit_urb` returns if it
is called. -/
def huion_irq_in (status : Int) (data : Packet) (submit_ret : Int) : List Effect :=
  let exit : List Effect :=
    Effect.usb_submit_urb ::
      (if submit_ret ≠ 0 then [Effect.dev_err submit_ret] else [])
  if status = 0 then
    huion_process_packet data ++ exit
  else if status = -ECONNRESET ∨ status = -ENOENT ∨ status = -ESHUTDOWN then
    []
  else
    exit

/-! ## Attach -/

/-- The fields of `struct usb_endpoint_descriptor` the driver reads (`__u8`). -/
structure usb_endpoint_descriptor where
  bEndpointAddress : Fin 256
  bmAttributes : Fin 256
  bInterval : Fin 256

/-- The part of `struct usb_interface` the driver reads: of
`cur_altsetting`, `desc.bNumEndpoints` and the `endpoint` array (read at
index 0 only, after `bNumEndpoints` has been checked to be 1), and the
driver data pointer (`true` when it is non-NULL). -/
structure usb_interface where
  bNumEndpoints : Fin 256
  endpoint : Nat → usb_endpoint_descriptor
  intfdata : Bool

/-- What the kernel answers to the five fallible calls of an attach. -/
structure ProbeEnv where
  kzalloc_ok : Bool
  usb_alloc_coherent_ok : Bool
  usb_alloc_urb_ok : Bool
  input_allocate_device_ok : Bool
  input_register_device_ret : Int

/-- `huion_init`, lines 120-162: the return value and the trace.  The
assignments to fields of `htab->idev` are not calls and leave no effect. -/
def huion_init (env : ProbeEnv) : Int × List Effect :=
  if env.input_allocate_device_ok = false then
    (-ENOMEM, [Effect.input_allocate_device false])
  else
    let setup : List Effect :=
      [ Effect.input_allocate_device true,
        Effect.usb_to_input_id,
        Effect.input_set_drvdata,
        Effect.input_set_capability EvType.EV_KEY Code.BTN_TOOL_PEN,
        Effect.input_set_capability EvType.EV_KEY Code.BTN_STYLUS,
        Effect.input_set_capability EvType.EV_ABS Code.ABS_X,
        Effect.input_set_capability EvType.EV_ABS Code.ABS_Y,
        Effect.input_set_capability EvType.EV_ABS Code.ABS_PRESSURE,
        Effect.input_set_capability EvType.EV_ABS Code.ABS_TILT_X,
        Effect.input_set_capability EvType.EV_ABS Code.ABS_TILT_Y,
        Effect.input_set_abs_params Code.ABS_X POS_X_MIN POS_X_MAX 0 0,
        Effect.input_set_abs_params Code.ABS_Y POS_Y_MIN POS_Y_MAX 0 0,
        Effect.input_set_abs_params Code.ABS_PRESSURE PEN_PRESSURE_MIN PEN_PRESSURE_MAX 0 0,
        Effect.input_set_abs_params Code.ABS_TILT_X TILT_X_MIN TILT_X_MAX 0 0,
        Effect.input_set_abs_params Code.ABS_TILT_Y TILT_Y_MIN TILT_Y_MAX 0 0,
        Effect.input_abs_set_res Code.ABS_X POS_X_MAX,
        Effect.input_abs_set_res Code.ABS_Y POS_Y_MAX,
        Effect.input_register_device env.input_register_device_ret ]
    if env.input_register_device_ret ≠ 0 then
      (env.input_register_device_ret, setup ++ [Effect.input_free_device])
    else
      (0, setup)

/-- `huion_probe`, lines 164-228: the return value and the trace.  The labels
`err_free_urb`, `err_free_idata`, `err_free_htab` fall through into one
another. -/
def huion_probe (env : ProbeEnv) (interface : usb_interface) : Int × List Effect :=
  let err_free_htab : List Effect := [Effect.kfree]
  let err_free_idata : List Effect := Effect.usb_free_coherent :: err_free_htab
  let err_free_urb : List Effect := Effect.usb_free_urb :: err_free_idata
  if interface.bNumEndpoints.val ≠ 1 then
    (-ENODEV, [])
  else
    let ep_irq_in := interface.endpoint 0
    if (ep_irq_in.bEndpointAddress.val &&& USB_DIR_IN) = 0 ∨
        (ep_irq_in.bmAttributes.val &&& USB_ENDPOINT_XFERTYPE_MASK) ≠ USB_ENDPOINT_XFER_INT then
      (-ENODEV, [])
    else if env.kzalloc_ok = false then
      (-ENOMEM, [Effect.kzalloc false])
    else
      let t1 : List Effect := [Effect.kzalloc true, Effect.usb_make_path, Effect.strlcat]
      if env.usb_alloc_coherent_ok = false then
        (-ENOMEM, t1 ++ [Effect.usb_alloc_coherent false] ++ err_free_htab)
      else
        let t2 : List Effect := t1 ++ [Effect.usb_alloc_coherent true]
        if env.usb_alloc_urb_ok = false then
          (-ENOMEM, t2 ++ [Effect.usb_alloc_urb false] ++ err_free_idata)
        else
          let t3 : List Effect :=
            t2 ++ [ Effect.usb_alloc_urb true,
                    Effect.usb_fill_int_urb ep_irq_in.bEndpointAddress.val ep_irq_in.bInterval.val,
                    Effect.usb_set_intfdata true ]
          let r := huion_init env
          if r.1 ≠ 0 then
            (r.1, t3 ++ r.2 ++ err_free_urb)
          else
            (0, t3 ++ r.2)

/-! ## Detach -/

/-- `huion_disconnect`, lines 230-242: the interface afterwards and the
trace.  `htab` is the pointer read by `usb_get_intfdata` before it is
cleared. -/
def huion_disconnect (interface : usb_interface) : usb_interface × List Effect :=
  let htab := interface.intfdata
  let cleared : usb_interface := { interface with intfdata := false }
  if htab then
    (cleared,
      [ Effect.usb_set_intfdata false,
        Effect.usb_kill_urb,
        Effect.input_unregister_device,
        Effect.usb_free_urb,
        Effect.usb_free_coherent,
        Effect.kfree ])
  else
    (cleared, [Effect.usb_set_intfdata false])

/-! ## Resource accounting over a trace -/

/-- Where one resource of a session stands. -/
inductive ResStatus where
  | absent
  | live
  | released
  deriving DecidableEq, Repr

/-- The four resources of a session and whether its input device is
registered. -/
structure Resources where
  htab : ResStatus
  idata : ResStatus
  urb : ResStatus
  idev : ResStatus
  registered : Bool
  deriving DecidableEq, Repr

/-- Nothing allocated, nothing registered. -/
def Resources.none : Resources :=
  ⟨ResStatus.absent, ResStatus.absent, ResStatus.absent, ResStatus.absent, false⟩

/-- Everything allocated and the input device registered. -/
def Resources.allLive : Resources :=
  ⟨ResStatus.live, ResStatus.live, ResStatus.live, ResStatus.live, true⟩

/-- The state after one effect; `none` when the effect is a misuse: an
allocation over a resource already held, a release of a resource that is not
live (never allocated, or already released), a registration of a device that
is not live, `input_free_device` on a registered device. A successful
`input_unregister_device` also drops the device. -/
def Resources.step (r : Resources) : Effect → Option Resources
  | .kzalloc true =>
      if r.htab = ResStatus.absent then some { r with htab := ResStatus.live } else Option.none
  | .usb_alloc_coherent true =>
      if r.idata = ResStatus.absent then some { r with idata := ResStatus.live } else Option.none
  | .usb_alloc_urb true =>
      if r.urb = ResStatus.absent then some { r with urb := ResStatus.live } else Option.none
  | .input_allocate_device true =>
      if r.idev = ResStatus.absent then some { r with idev := ResStatus.live } else Option.none
  | .input_register_device ret =>
      if r.idev = ResStatus.live ∧ r.registered = false then
        (if ret = 0 then some { r with registered := true } else some r)
      else Option.none
  | .input_free_device =>
      if r.idev = ResStatus.live ∧ r.registered = false then
        some { r with idev := ResStatus.released }
      else Option.none
  | .input_unregister_device =>
      if r.idev = ResStatus.live ∧ r.registered = true then
        some { r with idev := ResStatus.released, registered := false }
      else Option.none
  | .usb_free_urb =>
      if r.urb = ResStatus.live then some { r with urb := ResStatus.released } else Option.none
  | .usb_free_coherent =>
      if r.idata = ResStatus.live then some { r with idata := ResStatus.released } else Option.none
  | .kfree =>
      if r.htab = ResStatus.live then some { r with htab := ResStatus.released } else Option.none
  | _ => some r

/-- The state after a trace, `none` as soon as one effect is a misuse. -/
def Resources.run (r : Resources) : List Effect → Option Resources
  | [] => some r
  | e :: es =>
      match r.step e with
      | some r1 => r1.run es
      | Option.none => Option.none

/-- No resource is held: each is either never allocated or released. -/
def Resources.noneLive (r : Resources) : Bool :=
  decide (r.htab ≠ ResStatus.live) && decide (r.idata ≠ ResStatus.live) &&
    decide (r.urb ≠ ResStatus.live) && decide (r.idev ≠ ResStatus.live)

/-! ## Predicates used in the statements -/

/-- The effects only `huion_process_packet` produces: the hex dump of the
packet and the input events. -/
def Effect.isPacketEffect : Effect → Bool
  | .print_hex_dump _ => true
  | e => e.isInputEvent

/-- The three statuses on which `huion_irq_in` returns at once. -/
def benignStatus (status : Int) : Prop :=
  status = -ECONNRESET ∨ status = -ENOENT ∨ status = -ESHUTDOWN

instance (status : Int) : Decidable (benignStatus status) := by
  unfold benignStatus
  infer_instance

/-- The endpoint shape `huion_probe` accepts, as the specification words it: exactly
one endpoint, whose address has the IN direction bit and whose transfer type
is interrupt. -/
def endpointShapeOk (interface : usb_interface) : Prop :=
  interface.bNumEndpoints.val = 1 ∧
  ((interface.endpoint 0).bEndpointAddress.val &&& 0x80) ≠ 0 ∧
  ((interface.endpoint 0).bmAttributes.val &&& 0x03) = 0x03

instance (interface : usb_interface) : Decidable (endpointShapeOk interface) := by
  unfold endpointShapeOk
  infer_instance

/-- All five fallible steps of an attach succeed. -/
def ProbeEnv.allOk (env : ProbeEnv) : Prop :=
  env.kzalloc_ok = true ∧ env.usb_alloc_coherent_ok = true ∧ env.usb_alloc_urb_ok = true ∧
  env.input_allocate_device_ok = true ∧ env.input_register_device_ret = 0

instance (env : ProbeEnv) : Decidable env.allOk := by
  unfold ProbeEnv.allOk
  infer_instance

/-- An interface with one interrupt IN endpoint and no driver data yet. -/
def tabletInterface : usb_interface :=
  ⟨1, fun _ => ⟨0x81, 0x03, 2⟩, false⟩

/-- An interface with one bulk IN endpoint. -/
def bulkInterface : usb_interface :=
  ⟨1, fun _ => ⟨0x81, 0x02, 0⟩, false⟩

/-- An interface with one interrupt IN endpoint that holds a session. -/
def attachedInterface : usb_interface :=
  ⟨1, fun _ => ⟨0x81, 0x03, 2⟩, true⟩

/-- The kernel answers in which every step of an attach succeeds. -/
def allOkEnv : ProbeEnv :=
  ⟨true, true, true, true, 0⟩

/-- Every resource released: the state after a full teardown. -/
def Resources.allReleased : Resources :=
  ⟨ResStatus.released, ResStatus.released, ResStatus.released, ResStatus.released, false⟩

/-- Each release effect occurs as often as the successful allocation it
answers, at most once, and no registration succeeded. -/
def releasedExactlyOnce (tr : List Effect) : Prop :=
  (tr.count Effect.kfree = tr.count (Effect.kzalloc true) ∧
    tr.count (Effect.kzalloc true) ≤ 1) ∧
  (tr.count Effect.usb_free_coherent = tr.count (Effect.usb_alloc_coherent true) ∧
    tr.count (Effect.usb_alloc_coherent true) ≤ 1) ∧
  (tr.count Effect.usb_free_urb = tr.count (Effect.usb_alloc_urb true) ∧
    tr.count (Effect.usb_alloc_urb true) ≤ 1) ∧
  (tr.count Effect.input_free_device = tr.count (Effect.input_allocate_device true) ∧
    tr.count (Effect.input_allocate_device true) ≤ 1) ∧
  tr.count (Effect.input_register_device 0) = 0 ∧
  tr.count Effect.input_unregister_device = 0

/-! ## The wire format as the specification words it -/

/-- A byte read as a signed (two's-complement) byte, in `[-128, 127]`. -/
def signedByte (b : Nat) : Int :=
  if b < 128 then (b : Int) else (b : Int) - 256

/-- The low eight bits of an integer, as a byte. -/
def byteOfInt (v : Int) : Fin 256 :=
  ⟨(v % 256).toNat, by omega⟩

/-- Writing decoded values back at the wire offsets: `pen` into bit 0 of
byte 1 with the other bits kept, `x`, `y`, `pressure` as little-endian 16-bit
values at offsets 2-3, 4-5, 6-7, `tilt_x` and `tilt_y` as single bytes at
offsets 10 and 11.  Every other byte is kept. -/
def encode (p : Packet) (pen x y pressure tilt_x tilt_y : Int) : Packet :=
  fun i =>
    match i.val with
    | 1 => byteOfInt ((((p 1).val &&& 0xFE) ||| (pen.toNat &&& 1) : Nat) : Int)
    | 2 => byteOfInt x
    | 3 => byteOfInt (x / 256)
    | 4 => byteOfInt y
    | 5 => byteOfInt (y / 256)
    | 6 => byteOfInt pressure
    | 7 => byteOfInt (pressure / 256)
    | 10 => byteOfInt tilt_x
    | 11 => byteOfInt tilt_y
    | _ => p i

/-! ## Packets used as concrete inputs -/

/-- The packet of the specification's scenario,
`[_, 0x01, 0x10, 0x00, 0x20, 0x00, 0xFF, 0x00, _, _, 0x05, 0xFB]`, the
unspecified bytes being 0. -/
def scenarioPacket : Packet :=
  fun i =>
    match i.val with
    | 1 => 0x01
    | 2 => 0x10
    | 4 => 0x20
    | 6 => 0xFF
    | 10 => 0x05
    | 11 => 0xFB
    | _ => 0

/-- A pen packet whose position and pressure fields are all ones. -/
def fullScalePacket : Packet :=
  fun i => if i.val = 1 then 0x01 else 0xFF

/-- A pen packet whose fields are all zero. -/
def zeroPacket : Packet :=
  fun _ => 0

/-- A packet with the reserved discriminator `0xE0`, pen fields set. -/
def idlePacket : Packet :=
  fun i => if i.val = 1 then 0xE0 else 0x11

/-! ## Arithmetic of the field extraction -/

theorem le16_eq (a b : Nat) (h : a < 256) : a ||| (b <<< 8) = a + 256 * b := by
  have h8 : a < 2 ^ 8 := by simpa using h
  rw [Nat.lor_comm, Nat.shiftLeft_eq, Nat.mul_comm b (2 ^ 8), ← Nat.mul_add_lt_is_or h8 b]
  omega

theorem le16_lt (a b : Nat) (ha : a < 256) (hb : b < 256) : a ||| (b <<< 8) < 65536 := by
  rw [le16_eq a b ha]
  omega

/-- The trace of a pen packet, with the field extraction in arithmetic form. -/
theorem huion_process_packet_pen (data : Packet) (h : (data 1).val ≠ 0xE0) :
    inputEvents (huion_process_packet data) =
      [ Effect.input_report_key Code.BTN_TOOL_PEN (((data 1).val % 2 : Nat) : Int),
        Effect.input_report_abs Code.ABS_X
          ((max ((data 2).val + 256 * (data 3).val) 0x0003 : Nat) : Int),
        Effect.input_report_abs Code.ABS_Y
          ((max ((data 4).val + 256 * (data 5).val) 0x0002 : Nat) : Int),
        Effect.input_report_abs Code.ABS_PRESSURE
          (((data 6).val + 256 * (data 7).val : Nat) : Int),
        Effect.input_report_abs Code.ABS_TILT_X (((data 10).val : Nat) : Int),
        Effect.input_report_abs Code.ABS_TILT_Y (((data 11).val : Nat) : Int),
        Effect.input_sync ] := by
  have h2 := le16_eq (data 2).val (data 3).val (data 2).isLt
  have h4 := le16_eq (data 4).val (data 5).val (data 4).isLt
  have h6 := le16_eq (data 6).val (data 7).val (data 6).isLt
  simp [huion_process_packet, inputEvents, Effect.isInputEvent, h, PEN_STATE_BYTE,
    PEN_DOWN_MASK, POS_X_MIN, POS_Y_MIN, Nat.and_one_is_mod, h2, h4, h6]

/-! ## Claims about the packet path -/

/-- C1: a packet whose byte at offset 1 is not 0xE0 yields exactly seven
input events, in order: the pen key with bit 0 of byte 1, ABS_X with
`max (b2 + 256*b3) 3`, ABS_Y with `max (b4 + 256*b5) 2`, ABS_PRESSURE with
`b6 + 256*b7`, ABS_TILT_X, ABS_TILT_Y, and one sync, which is last. -/
theorem C1_pen_packet_seven_events (data : Packet) (h : (data 1).val ≠ 0xE0) :
    ∃ tx ty : Int,
      inputEvents (huion_process_packet data) =
        [ Effect.input_report_key Code.BTN_TOOL_PEN (((data 1).val % 2 : Nat) : Int),
          Effect.input_report_abs Code.ABS_X
            ((max ((data 2).val + 256 * (data 3).val) 0x0003 : Nat) : Int),
          Effect.input_report_abs Code.ABS_Y
            ((max ((data 4).val + 256 * (data 5).val) 0x0002 : Nat) : Int),
          Effect.input_report_abs Code.ABS_PRESSURE
            (((data 6).val + 256 * (data 7).val : Nat) : Int),
          Effect.input_report_abs Code.ABS_TILT_X tx,
          Effect.input_report_abs Code.ABS_TILT_Y ty,
          Effect.input_sync ] :=
  ⟨_, _, huion_process_packet_pen data h⟩

theorem C1_pen_packet_seven_events_witness :
    (zeroPacket 1).val ≠ 0xE0 ∧
    ∃ tx ty : Int,
      inputEvents (huion_process_packet zeroPacket) =
        [ Effect.input_report_key Code.BTN_TOOL_PEN (((zeroPacket 1).val % 2 : Nat) : Int),
          Effect.input_report_abs Code.ABS_X
            ((max ((zeroPacket 2).val + 256 * (zeroPacket 3).val) 0x0003 : Nat) : Int),
          Effect.input_report_abs Code.ABS_Y
            ((max ((zeroPacket 4).val + 256 * (zeroPacket 5).val) 0x0002 : Nat) : Int),
          Effect.input_report_abs Code.ABS_PRESSURE
            (((zeroPacket 6).val + 256 * (zeroPacket 7).val : Nat) : Int),
          Effect.input_report_abs Code.ABS_TILT_X tx,
          Effect.input_report_abs Code.ABS_TILT_Y ty,
          Effect.input_sync ] :=
  ⟨by decide, C1_pen_packet_seven_events zeroPacket (by decide)⟩

/-- C2: the tilt bytes are to be emitted as signed bytes, and the driver
misses the sign conversion.  On the scenario packet byte 11 is 0xFB, whose
signed reading is -5, and the value emitted on ABS_TILT_Y is 251; the value
-5 is not emitted.  The range `huion_init` declares for the tilt axes,
`TILT_Y_MIN = 0xC4` to `TILT_Y_MAX = 0x3C`, holds no integer as written (196
to 60) and is -60 to 60 when its bounds are read as signed bytes: -5 lies in
it, 251 lies in neither reading. -/
theorem C2_tilt_sign_conversion_missing :
    (scenarioPacket 1).val ≠ 0xE0 ∧
    signedByte (scenarioPacket 10).val = 5 ∧
    signedByte (scenarioPacket 11).val = -5 ∧
    inputEvents (huion_process_packet scenarioPacket) =
      [ Effect.input_report_key Code.BTN_TOOL_PEN 1,
        Effect.input_report_abs Code.ABS_X 0x10,
        Effect.input_report_abs Code.ABS_Y 0x20,
        Effect.input_report_abs Code.ABS_PRESSURE 0xFF,
        Effect.input_report_abs Code.ABS_TILT_X 5,
        Effect.input_report_abs Code.ABS_TILT_Y 251,
        Effect.input_sync ] ∧
    Effect.input_report_abs Code.ABS_TILT_Y (signedByte (scenarioPacket 11).val) ∉
      huion_process_packet scenarioPacket ∧
    Effect.input_set_abs_params Code.ABS_TILT_Y (TILT_Y_MIN : Int) (TILT_Y_MAX : Int) 0 0 ∈
      (huion_init allOkEnv).2 ∧
    ¬ ((TILT_Y_MIN : Int) ≤ (TILT_Y_MAX : Int)) ∧
    (signedByte TILT_Y_MIN = -60 ∧ signedByte TILT_Y_MAX = 60) ∧
    (signedByte TILT_Y_MIN ≤ signedByte (scenarioPacket 11).val ∧
      signedByte (scenarioPacket 11).val ≤ signedByte TILT_Y_MAX) ∧
    ¬ ((251 : Int) ≤ signedByte TILT_Y_MAX) ∧
    ¬ ((251 : Int) ≤ (TILT_Y_MAX : Int)) := by
  decide

/-- C3, as stated, fails on a pen packet whose position and pressure bytes
are all 0xFF: 65535 is emitted on ABS_X, ABS_Y and ABS_PRESSURE, above the
declared maxima 0xC670, 0x7C06 and 0x1FFF. -/
theorem C3_declared_range_counterexample :
    (fullScalePacket 1).val ≠ 0xE0 ∧
    (Effect.input_report_abs Code.ABS_X 65535 ∈ huion_process_packet fullScalePacket ∧
      ¬ ((65535 : Int) ≤ (POS_X_MAX : Int))) ∧
    (Effect.input_report_abs Code.ABS_Y 65535 ∈ huion_process_packet fullScalePacket ∧
      ¬ ((65535 : Int) ≤ (POS_Y_MAX : Int))) ∧
    (Effect.input_report_abs Code.ABS_PRESSURE 65535 ∈ huion_process_packet fullScalePacket ∧
      ¬ ((65535 : Int) ≤ (PEN_PRESSURE_MAX : Int))) := by
  decide

/-- C3, amended: for a packet whose byte at offset 1 is not 0xE0, the value
emitted on ABS_X is in `[0x0003, 0xFFFF]`, on ABS_Y in `[0x0002, 0xFFFF]`, on
ABS_PRESSURE in `[0x0000, 0xFFFF]`; each is at most its declared maximum
exactly when the raw field is. -/
theorem C3_emitted_range (data : Packet) (h : (data 1).val ≠ 0xE0) (v : Int) :
    (Effect.input_report_abs Code.ABS_X v ∈ huion_process_packet data →
      (POS_X_MIN : Int) ≤ v ∧ v ≤ 0xFFFF ∧
      (v ≤ (POS_X_MAX : Int) ↔ (data 2).val + 256 * (data 3).val ≤ POS_X_MAX)) ∧
    (Effect.input_report_abs Code.ABS_Y v ∈ huion_process_packet data →
      (POS_Y_MIN : Int) ≤ v ∧ v ≤ 0xFFFF ∧
      (v ≤ (POS_Y_MAX : Int) ↔ (data 4).val + 256 * (data 5).val ≤ POS_Y_MAX)) ∧
    (Effect.input_report_abs Code.ABS_PRESSURE v ∈ huion_process_packet data →
      (PEN_PRESSURE_MIN : Int) ≤ v ∧ v ≤ 0xFFFF ∧
      (v ≤ (PEN_PRESSURE_MAX : Int) ↔
        (data 6).val + 256 * (data 7).val ≤ PEN_PRESSURE_MAX)) := by
  have e2 := le16_eq (data 2).val (data 3).val (data 2).isLt
  have e4 := le16_eq (data 4).val (data 5).val (data 4).isLt
  have e6 := le16_eq (data 6).val (data 7).val (data 6).isLt
  have b2 := (data 2).isLt
  have b3 := (data 3).isLt
  have b4 := (data 4).isLt
  have b5 := (data 5).isLt
  have b6 := (data 6).isLt
  have b7 := (data 7).isLt
  simp only [huion_process_packet, if_neg h, List.mem_cons, List.mem_singleton, reduceCtorEq,
    false_or, or_false, Effect.input_report_abs.injEq, true_and, false_and, e2, e4, e6,
    POS_X_MIN, POS_X_MAX, POS_Y_MIN, POS_Y_MAX, PEN_PRESSURE_MIN, PEN_PRESSURE_MAX,
    List.not_mem_nil]
  refine ⟨?_, ?_, ?_⟩ <;> intro hv <;> subst hv <;> omega

theorem C3_emitted_range_witness :
    (fullScalePacket 1).val ≠ 0xE0 ∧
    ((POS_X_MIN : Int) ≤ 65535 ∧ (65535 : Int) ≤ 0xFFFF ∧
      ((65535 : Int) ≤ (POS_X_MAX : Int) ↔
        (fullScalePacket 2).val + 256 * (fullScalePacket 3).val ≤ POS_X_MAX)) :=
  ⟨by decide, (C3_emitted_range fullScalePacket (by decide) 65535).1 (by decide)⟩

/-- C4: for a packet whose byte at offset 1 is not 0xE0, with raw x
`b2 + 256*b3` and raw y `b4 + 256*b5`, the value emitted on ABS_X is 0x0003
when raw x is below 0x0003 and raw x otherwise, also above the declared
maximum 0xC670; the value emitted on ABS_Y is 0x0002 when raw y is below
0x0002 and raw y otherwise, also above 0x7C06. -/
theorem C4_lower_bound_only_clamp (data : Packet) (h : (data 1).val ≠ 0xE0) (v : Int) :
    (Effect.input_report_abs Code.ABS_X v ∈ huion_process_packet data ↔
      v = if (data 2).val + 256 * (data 3).val < 0x0003 then (0x0003 : Int)
          else (((data 2).val + 256 * (data 3).val : Nat) : Int)) ∧
    (Effect.input_report_abs Code.ABS_Y v ∈ huion_process_packet data ↔
      v = if (data 4).val + 256 * (data 5).val < 0x0002 then (0x0002 : Int)
          else (((data 4).val + 256 * (data 5).val : Nat) : Int)) ∧
    (0xC670 < (data 2).val + 256 * (data 3).val →
      Effect.input_report_abs Code.ABS_X (((data 2).val + 256 * (data 3).val : Nat) : Int) ∈
        huion_process_packet data) ∧
    (0x7C06 < (data 4).val + 256 * (data 5).val →
      Effect.input_report_abs Code.ABS_Y (((data 4).val + 256 * (data 5).val : Nat) : Int) ∈
        huion_process_packet data) := by
  have e2 := le16_eq (data 2).val (data 3).val (data 2).isLt
  have e4 := le16_eq (data 4).val (data 5).val (data 4).isLt
  simp only [huion_process_packet, if_neg h, List.mem_cons, List.mem_singleton, reduceCtorEq,
    false_or, or_false, Effect.input_report_abs.injEq, true_and, false_and, e2, e4,
    POS_X_MIN, POS_Y_MIN, List.not_mem_nil]
  refine ⟨?_, ?_, ?_, ?_⟩
  · split <;> constructor <;> intro hv <;> omega
  · split <;> constructor <;> intro hv <;> omega
  · intro hx; omega
  · intro hy; omega

theorem C4_lower_bound_only_clamp_witness :
    ((zeroPacket 1).val ≠ 0xE0 ∧
      Effect.input_report_abs Code.ABS_X 0x0003 ∈ huion_process_packet zeroPacket ∧
      Effect.input_report_abs Code.ABS_Y 0x0002 ∈ huion_process_packet zeroPacket) ∧
    ((fullScalePacket 1).val ≠ 0xE0 ∧
      Effect.input_report_abs Code.ABS_X 0xFFFF ∈ huion_process_packet fullScalePacket ∧
      Effect.input_report_abs Code.ABS_Y 0xFFFF ∈ huion_process_packet fullScalePacket) :=
  ⟨⟨by decide,
    (C4_lower_bound_only_clamp zeroPacket (by decide) 0x0003).1.mpr (by decide),
    (C4_lower_bound_only_clamp zeroPacket (by decide) 0x0002).2.1.mpr (by decide)⟩,
   ⟨by decide,
    (C4_lower_bound_only_clamp fullScalePacket (by decide) 0xFFFF).1.mpr (by decide),
    (C4_lower_bound_only_clamp fullScalePacket (by decide) 0xFFFF).2.1.mpr (by decide)⟩⟩

/-! ## Round trip through the wire format -/

theorem byteOfInt_val (n : Nat) : (byteOfInt (n : Int)).val = n % 256 := by
  simp only [byteOfInt]
  omega

theorem byteOfInt_div_val (n : Nat) : (byteOfInt ((n : Int) / 256)).val = n / 256 % 256 := by
  simp only [byteOfInt]
  omega

theorem pen_bit_writeback (b : Nat) (h : b < 256) : (b &&& 0xFE) ||| (b % 2 &&& 1) = b := by
  have h1 : b % 2 &&& 1 = b &&& 1 := by
    rw [Nat.and_one_is_mod, Nat.and_one_is_mod, Nat.mod_mod]
  have h2 : b &&& 255 = b := by
    have := Nat.and_pow_two_sub_one_eq_mod b 8
    simp only [Nat.reducePow, Nat.add_one_sub_one] at this
    rw [this]
    exact Nat.mod_eq_of_lt h
  rw [h1, ← Nat.and_or_distrib_left]
  exact h2

/-- C10: for a packet whose byte at offset 1 is not 0xE0, writing the emitted
pen, x, y, pressure and tilt values back at the wire offsets gives a packet
for which the same input events are emitted. -/
theorem C10_encode_round_trip (p : Packet) (h : (p 1).val ≠ 0xE0) :
    ∃ pen x y pressure tilt_x tilt_y : Int,
      inputEvents (huion_process_packet p) =
        [ Effect.input_report_key Code.BTN_TOOL_PEN pen,
          Effect.input_report_abs Code.ABS_X x,
          Effect.input_report_abs Code.ABS_Y y,
          Effect.input_report_abs Code.ABS_PRESSURE pressure,
          Effect.input_report_abs Code.ABS_TILT_X tilt_x,
          Effect.input_report_abs Code.ABS_TILT_Y tilt_y,
          Effect.input_sync ] ∧
      inputEvents (huion_process_packet (encode p pen x y pressure tilt_x tilt_y)) =
        inputEvents (huion_process_packet p) := by
  refine ⟨_, _, _, _, _, _, huion_process_packet_pen p h, ?_⟩
  have b1 := (p 1).isLt
  have b2 := (p 2).isLt
  have b3 := (p 3).isLt
  have b4 := (p 4).isLt
  have b5 := (p 5).isLt
  have b6 := (p 6).isLt
  have b7 := (p 7).isLt
  have b10 := (p 10).isLt
  have b11 := (p 11).isLt
  generalize hq : encode p _ _ _ _ _ _ = q
  have q1 : (q 1).val = (p 1).val := by
    subst hq
    show (byteOfInt _).val = _
    rw [Int.toNat_ofNat, pen_bit_writeback _ b1, byteOfInt_val]
    omega
  have q2 : (q 2).val = (max ((p 2).val + 256 * (p 3).val) 3) % 256 := by
    subst hq; exact byteOfInt_val _
  have q3 : (q 3).val = (max ((p 2).val + 256 * (p 3).val) 3) / 256 % 256 := by
    subst hq; exact byteOfInt_div_val _
  have q4 : (q 4).val = (max ((p 4).val + 256 * (p 5).val) 2) % 256 := by
    subst hq; exact byteOfInt_val _
  have q5 : (q 5).val = (max ((p 4).val + 256 * (p 5).val) 2) / 256 % 256 := by
    subst hq; exact byteOfInt_div_val _
  have q6 : (q 6).val = ((p 6).val + 256 * (p 7).val) % 256 := by
    subst hq; exact byteOfInt_val _
  have q7 : (q 7).val = ((p 6).val + 256 * (p 7).val) / 256 % 256 := by
    subst hq; exact byteOfInt_div_val _
  have q10 : (q 10).val = (p 10).val := by
    subst hq
    show (byteOfInt _).val = _
    rw [byteOfInt_val]; omega
  have q11 : (q 11).val = (p 11).val := by
    subst hq
    show (byteOfInt _).val = _
    rw [byteOfInt_val]; omega
  have hq1 : (q 1).val ≠ 0xE0 := by rw [q1]; exact h
  rw [huion_process_packet_pen q hq1, huion_process_packet_pen p h,
    q1, q2, q3, q4, q5, q6, q7, q10, q11]
  have ex : (max ((p 2).val + 256 * (p 3).val) 3) % 256 +
      256 * ((max ((p 2).val + 256 * (p 3).val) 3) / 256 % 256) =
      max ((p 2).val + 256 * (p 3).val) 3 := by omega
  have ey : (max ((p 4).val + 256 * (p 5).val) 2) % 256 +
      256 * ((max ((p 4).val + 256 * (p 5).val) 2) / 256 % 256) =
      max ((p 4).val + 256 * (p 5).val) 2 := by omega
  have ep : ((p 6).val + 256 * (p 7).val) % 256 +
      256 * (((p 6).val + 256 * (p 7).val) / 256 % 256) =
      (p 6).val + 256 * (p 7).val := by omega
  rw [ex, ey, ep]
  simp

theorem C10_encode_round_trip_witness :
    (zeroPacket 1).val ≠ 0xE0 ∧
    ∃ pen x y pressure tilt_x tilt_y : Int,
      inputEvents (huion_process_packet zeroPacket) =
        [ Effect.input_report_key Code.BTN_TOOL_PEN pen,
          Effect.input_report_abs Code.ABS_X x,
          Effect.input_report_abs Code.ABS_Y y,
          Effect.input_report_abs Code.ABS_PRESSURE pressure,
          Effect.input_report_abs Code.ABS_TILT_X tilt_x,
          Effect.input_report_abs Code.ABS_TILT_Y tilt_y,
          Effect.input_sync ] ∧
      inputEvents (huion_process_packet (encode zeroPacket pen x y pressure tilt_x tilt_y)) =
        inputEvents (huion_process_packet zeroPacket) :=
  ⟨by decide, C10_encode_round_trip zeroPacket (by decide)⟩

/-! ## Claims about the completion handler -/

theorem huion_process_packet_count_submit (data : Packet) :
    (huion_process_packet data).count Effect.usb_submit_urb = 0 := by
  unfold huion_process_packet
  split <;> simp

theorem huion_process_packet_no_teardown (data : Packet) :
    ∀ e ∈ huion_process_packet data, e.isTeardown = false := by
  unfold huion_process_packet
  split <;> simp [Effect.isTeardown]

theorem huion_process_packet_any_packetEffect (data : Packet) :
    (huion_process_packet data).any Effect.isPacketEffect = true := by
  unfold huion_process_packet
  simp [Effect.isPacketEffect]

/-- C5: a packet whose byte at offset 1 is 0xE0, whatever its other bytes,
yields no input event, and a completion with status 0 that delivers it is
followed by exactly one resubmission of the read request. -/
theorem C5_idle_packet_no_events (data : Packet) (h : (data 1).val = 0xE0)
    (submit_ret : Int) :
    inputEvents (huion_process_packet data) = [] ∧
    inputEvents (huion_irq_in 0 data submit_ret) = [] ∧
    (huion_irq_in 0 data submit_ret).count Effect.usb_submit_urb = 1 := by
  refine ⟨?_, ?_, ?_⟩
  · simp [huion_process_packet, inputEvents, Effect.isInputEvent, h]
  · by_cases hr : submit_ret = 0 <;>
      simp [huion_irq_in, huion_process_packet, inputEvents, Effect.isInputEvent, h, hr]
  · by_cases hr : submit_ret = 0 <;>
      simp [huion_irq_in, huion_process_packet, h, hr]

theorem C5_idle_packet_no_events_witness :
    (idlePacket 1).val = 0xE0 ∧
    inputEvents (huion_process_packet idlePacket) = [] ∧
    inputEvents (huion_irq_in 0 idlePacket (-19)) = [] ∧
    (huion_irq_in 0 idlePacket (-19)).count Effect.usb_submit_urb = 1 :=
  ⟨by decide, C5_idle_packet_no_events idlePacket (by decide) (-19)⟩

/-- C6: in `huion_irq_in`, for every completion status, the packet is
processed if and only if the status is 0; `usb_submit_urb` is called 0 times
when the status is -ECONNRESET, -ENOENT or -ESHUTDOWN and exactly once for
every other status; a resubmission that fails is followed by the error
message alone: no second resubmission, and no cancel, unregister or free. -/
theorem C6_completion_classification (status : Int) (data : Packet) (submit_ret : Int) :
    (((huion_irq_in status data submit_ret).any Effect.isPacketEffect = true) ↔ status = 0) ∧
    (status = 0 → huion_process_packet data <+: huion_irq_in status data submit_ret) ∧
    (huion_irq_in status data submit_ret).count Effect.usb_submit_urb =
      (if benignStatus status then 0 else 1) ∧
    (∀ e ∈ huion_irq_in status data submit_ret, e.isTeardown = false) ∧
    (submit_ret ≠ 0 → ¬ benignStatus status →
      ∃ before, huion_irq_in status data submit_ret =
          before ++ [Effect.usb_submit_urb, Effect.dev_err submit_ret] ∧
        Effect.usb_submit_urb ∉ before) := by
  have hc := huion_process_packet_count_submit data
  have ht := huion_process_packet_no_teardown data
  have ha := huion_process_packet_any_packetEffect data
  by_cases hs : status = 0
  · subst hs
    have hb : ¬ benignStatus 0 := by decide
    refine ⟨?_, ?_, ?_, ?_, ?_⟩
    · simp only [huion_irq_in, if_true, List.any_append, ha, Bool.true_or]
    · intro _
      simp only [huion_irq_in, if_true]
      exact List.prefix_append _ _
    · rw [if_neg hb]
      by_cases hr : submit_ret = 0 <;> simp [huion_irq_in, hc, hr]
    · intro e he
      simp only [huion_irq_in, if_true, List.mem_append] at he
      rcases he with he | he
      · exact ht e he
      · by_cases hr : submit_ret = 0 <;> simp [hr] at he
        · subst he; rfl
        · rcases he with he | he <;> subst he <;> rfl
    · intro hr _
      refine ⟨huion_process_packet data, ?_, ?_⟩
      · simp [huion_irq_in, hr]
      · intro hm
        have := List.count_pos_iff.mpr hm
        omega
  · by_cases hb : benignStatus status
    · have hb2 : status = -ECONNRESET ∨ status = -ENOENT ∨ status = -ESHUTDOWN := hb
      refine ⟨?_, ?_, ?_, ?_, ?_⟩
      · simp [huion_irq_in, hs, hb2]
      · intro h0; exact absurd h0 hs
      · rw [if_pos hb]; simp [huion_irq_in, hs, hb2]
      · simp [huion_irq_in, hs, hb2]
      · intro _ hnb; exact absurd hb hnb
    · have hb2 : ¬ (status = -ECONNRESET ∨ status = -ENOENT ∨ status = -ESHUTDOWN) := hb
      refine ⟨?_, ?_, ?_, ?_, ?_⟩
      · by_cases hr : submit_ret = 0 <;>
          simp [huion_irq_in, hs, hb2, hr, Effect.isPacketEffect, Effect.isInputEvent]
      · intro h0; exact absurd h0 hs
      · rw [if_neg hb]
        by_cases hr : submit_ret = 0 <;> simp [huion_irq_in, hs, hb2, hr]
      · by_cases hr : submit_ret = 0 <;>
          simp [huion_irq_in, hs, hb2, hr, Effect.isTeardown]
      · intro hr _
        refine ⟨[], ?_, ?_⟩
        · simp [huion_irq_in, hs, hb2, hr]
        · simp

theorem C6_completion_classification_witness :
    (huion_irq_in (-ESHUTDOWN) scenarioPacket 0).count Effect.usb_submit_urb = 0 ∧
    (huion_irq_in (-71) scenarioPacket (-19)).count Effect.usb_submit_urb = 1 ∧
    (huion_irq_in 0 scenarioPacket (-19)).count Effect.usb_submit_urb = 1 :=
  ⟨(C6_completion_classification (-ESHUTDOWN) scenarioPacket 0).2.2.1.trans (by decide),
   (C6_completion_classification (-71) scenarioPacket (-19)).2.2.1.trans (by decide),
   (C6_completion_classification 0 scenarioPacket (-19)).2.2.1.trans (by decide)⟩

/-! ## Claims about attach and detach -/

theorem huion_probe_rejects (env : ProbeEnv) (interface : usb_interface)
    (h : ¬ endpointShapeOk interface) : huion_probe env interface = (-ENODEV, []) := by
  unfold endpointShapeOk at h
  unfold huion_probe
  by_cases h1 : interface.bNumEndpoints.val = 1
  · simp only [h1, true_and, not_and, not_not, USB_DIR_IN, USB_ENDPOINT_XFERTYPE_MASK,
      USB_ENDPOINT_XFER_INT] at h ⊢
    by_cases h2 : ((interface.endpoint 0).bEndpointAddress.val &&& 0x80) = 0
    · simp [h2]
    · have h3 := h h2
      simp [h2, h3]
  · simp [h1]

/-- C9: if the interface does not have exactly one endpoint, or endpoint 0
lacks the IN direction bit, or its transfer type is not interrupt, then
`huion_probe` returns -ENODEV with an empty trace (no allocation, no
registration); if all three checks pass, the first allocation is attempted,
and a return value of -ENODEV can only be the one `input_register_device`
gave. -/
theorem C9_endpoint_validation (env : ProbeEnv) (interface : usb_interface) :
    ((interface.bNumEndpoints.val ≠ 1 ∨
        ((interface.endpoint 0).bEndpointAddress.val &&& 0x80) = 0 ∨
        ((interface.endpoint 0).bmAttributes.val &&& 0x03) ≠ 0x03) →
      huion_probe env interface = (-ENODEV, [])) ∧
    ((interface.bNumEndpoints.val = 1 ∧
        ((interface.endpoint 0).bEndpointAddress.val &&& 0x80) ≠ 0 ∧
        ((interface.endpoint 0).bmAttributes.val &&& 0x03) = 0x03) →
      (∃ rest, (huion_probe env interface).2 = Effect.kzalloc env.kzalloc_ok :: rest) ∧
      ((huion_probe env interface).1 = -ENODEV →
        env.kzalloc_ok = true ∧ env.usb_alloc_coherent_ok = true ∧
        env.usb_alloc_urb_ok = true ∧ env.input_allocate_device_ok = true ∧
        env.input_register_device_ret = -ENODEV)) := by
  constructor
  · intro h
    apply huion_probe_rejects
    unfold endpointShapeOk
    omega
  · rintro ⟨h1, h2, h3⟩
    obtain ⟨k, c, u, d, ret⟩ := env
    have g1 : ¬ (interface.bNumEndpoints.val ≠ 1) := by omega
    have g2 : ¬ (((interface.endpoint 0).bEndpointAddress.val &&& USB_DIR_IN) = 0 ∨
        ((interface.endpoint 0).bmAttributes.val &&& USB_ENDPOINT_XFERTYPE_MASK) ≠
          USB_ENDPOINT_XFER_INT) := by
      simp only [USB_DIR_IN, USB_ENDPOINT_XFERTYPE_MASK, USB_ENDPOINT_XFER_INT]
      omega
    unfold huion_probe
    simp only [if_neg g1, if_neg g2]
    by_cases hr : ret = 0 <;> cases k <;> cases c <;> cases u <;> cases d <;>
      simp [huion_init, hr, ENOMEM, ENODEV]

theorem C9_endpoint_validation_witness :
    huion_probe allOkEnv bulkInterface = (-ENODEV, []) ∧
    ∃ rest, (huion_probe allOkEnv tabletInterface).2 = Effect.kzalloc true :: rest :=
  ⟨(C9_endpoint_validation allOkEnv bulkInterface).1 (Or.inr (Or.inr (by decide))),
   ((C9_endpoint_validation allOkEnv tabletInterface).2
      ⟨by decide, by decide, by decide⟩).1⟩

theorem endpointShapeOk_checks (interface : usb_interface) (hv : endpointShapeOk interface) :
    ¬ (interface.bNumEndpoints.val ≠ 1) ∧
    ¬ (((interface.endpoint 0).bEndpointAddress.val &&& USB_DIR_IN) = 0 ∨
        ((interface.endpoint 0).bmAttributes.val &&& USB_ENDPOINT_XFERTYPE_MASK) ≠
          USB_ENDPOINT_XFER_INT) := by
  obtain ⟨h1, h2, h3⟩ := hv
  simp only [USB_DIR_IN, USB_ENDPOINT_XFERTYPE_MASK, USB_ENDPOINT_XFER_INT]
  omega

/-- The attach in which every step succeeds. -/
theorem huion_probe_all_ok (interface : usb_interface) (hv : endpointShapeOk interface) :
    (huion_probe ⟨true, true, true, true, 0⟩ interface).1 = 0 ∧
    Resources.none.run (huion_probe ⟨true, true, true, true, 0⟩ interface).2 =
      some Resources.allLive := by
  obtain ⟨g1, g2⟩ := endpointShapeOk_checks interface hv
  unfold huion_probe
  simp only [if_neg g1, if_neg g2]
  exact ⟨rfl, rfl⟩

/-- The attach in which only the registration fails. -/
theorem huion_probe_register_fails (interface : usb_interface)
    (hv : endpointShapeOk interface) (ret : Int) (hr : ret ≠ 0) :
    (huion_probe ⟨true, true, true, true, ret⟩ interface).1 = ret ∧
    Resources.none.run (huion_probe ⟨true, true, true, true, ret⟩ interface).2 =
      some Resources.allReleased ∧
    releasedExactlyOnce (huion_probe ⟨true, true, true, true, ret⟩ interface).2 := by
  obtain ⟨g1, g2⟩ := endpointShapeOk_checks interface hv
  unfold huion_probe
  simp only [if_neg g1, if_neg g2, huion_init, ne_eq, hr, not_false_eq_true, if_true,
    Bool.true_eq_false, if_false, List.cons_append, List.nil_append, List.append_assoc]
  refine ⟨trivial, ?_, ?_⟩
  · simp only [Resources.run, Resources.step, Resources.none, hr, if_false, if_true,
      and_self, Resources.allReleased]
  · simp only [releasedExactlyOnce, List.count_cons, List.count_nil, beq_iff_eq, reduceCtorEq,
      if_false, if_true, Effect.input_register_device.injEq, hr, zero_add, le_refl, and_self,
      beq_self_eq_true]

/-- The attach in which an allocation fails. -/
theorem huion_probe_alloc_fails (env : ProbeEnv) (interface : usb_interface)
    (hv : endpointShapeOk interface)
    (hf : env.kzalloc_ok = false ∨ env.usb_alloc_coherent_ok = false ∨
      env.usb_alloc_urb_ok = false ∨ env.input_allocate_device_ok = false) :
    (huion_probe env interface).1 = -ENOMEM ∧
    ∃ r : Resources, Resources.none.run (huion_probe env interface).2 = some r ∧
      r.noneLive = true ∧ r.registered = false ∧
      releasedExactlyOnce (huion_probe env interface).2 := by
  obtain ⟨g1, g2⟩ := endpointShapeOk_checks interface hv
  obtain ⟨k, c, u, d, ret⟩ := env
  unfold huion_probe
  simp only [if_neg g1, if_neg g2]
  cases k
  · simp [Resources.run, Resources.step, Resources.none, Resources.noneLive,
      releasedExactlyOnce]
  cases c
  · simp [Resources.run, Resources.step, Resources.none, Resources.noneLive,
      releasedExactlyOnce]
  cases u
  · simp [Resources.run, Resources.step, Resources.none, Resources.noneLive,
      releasedExactlyOnce]
  cases d
  · simp [huion_init, ENOMEM, Resources.run, Resources.step, Resources.none,
      Resources.noneLive, releasedExactlyOnce]
  simp at hf

/-- C7: for every outcome of the five fallible steps of `huion_probe` and
`huion_init`, the trace is free of misuse (no double release, no release of
something not held); if the return value is non-zero, every resource
allocated in the call has been released exactly once and no input device is
registered; the return value is 0 only when the endpoint check and all five
steps succeeded, and then all four resources are live and the device is
registered. -/
theorem C7_attach_atomic (env : ProbeEnv) (interface : usb_interface) :
    ((huion_probe env interface).1 = 0 ↔ (endpointShapeOk interface ∧ env.allOk)) ∧
    ∃ r : Resources,
      Resources.none.run (huion_probe env interface).2 = some r ∧
      ((huion_probe env interface).1 ≠ 0 →
        r.noneLive = true ∧ r.registered = false ∧
        releasedExactlyOnce (huion_probe env interface).2) ∧
      ((huion_probe env interface).1 = 0 → r = Resources.allLive) := by
  by_cases hv : endpointShapeOk interface
  · by_cases hf : env.kzalloc_ok = false ∨ env.usb_alloc_coherent_ok = false ∨
        env.usb_alloc_urb_ok = false ∨ env.input_allocate_device_ok = false
    · obtain ⟨e1, r, e2, e3, e4, e5⟩ := huion_probe_alloc_fails env interface hv hf
      have hne : (huion_probe env interface).1 ≠ 0 := by rw [e1]; decide
      have hno : ¬ env.allOk := by
        unfold ProbeEnv.allOk
        rcases hf with h | h | h | h <;> simp [h]
      exact ⟨⟨fun h => absurd h hne, fun h => absurd h.2 hno⟩,
        r, e2, fun _ => ⟨e3, e4, e5⟩, fun h => absurd h hne⟩
    · obtain ⟨k, c, u, d, ret⟩ := env
      simp only [not_or, Bool.not_eq_false] at hf
      obtain ⟨hk, hc, hu, hd⟩ := hf
      subst hk hc hu hd
      by_cases hr : ret = 0
      · subst hr
        obtain ⟨e1, e2⟩ := huion_probe_all_ok interface hv
        exact ⟨⟨fun _ => ⟨hv, rfl, rfl, rfl, rfl, rfl⟩, fun _ => e1⟩,
          Resources.allLive, e2, fun h => absurd e1 h, fun _ => rfl⟩
      · obtain ⟨e1, e2, e3⟩ := huion_probe_register_fails interface hv ret hr
        refine ⟨?_, Resources.allReleased, e2, fun _ => ⟨rfl, rfl, e3⟩, ?_⟩
        · rw [e1]
          exact ⟨fun h => absurd h hr, fun h => absurd h.2.2.2.2.2 hr⟩
        · intro h
          rw [e1] at h
          exact absurd h hr
  · rw [huion_probe_rejects env interface hv]
    refine ⟨?_, Resources.none, rfl, ?_, ?_⟩
    · simp [ENODEV, hv]
    · intro _
      simp [Resources.noneLive, Resources.none, releasedExactlyOnce]
    · simp [ENODEV]

theorem C7_attach_atomic_witness :
    (huion_probe allOkEnv tabletInterface).1 = 0 ∧
    ¬ ((huion_probe ⟨true, true, true, true, -16⟩ tabletInterface).1 = 0) :=
  ⟨(C7_attach_atomic allOkEnv tabletInterface).1.mpr ⟨by decide, by decide⟩,
   fun h => absurd ((C7_attach_atomic ⟨true, true, true, true, -16⟩ tabletInterface).1.mp h).2
     (by decide)⟩

/-- C8: `huion_disconnect` on an interface holding a session clears the
interface data, cancels the read, unregisters the input device, frees the
URB, frees the packet buffer and frees the session, in this order, which
releases every resource of a live session without misuse; on an interface
holding no session it only clears the interface data; the interface holds no
session afterwards, so a second call releases nothing. -/
theorem C8_disconnect_order (interface : usb_interface) :
    (interface.intfdata = true →
      (huion_disconnect interface).2 =
        [ Effect.usb_set_intfdata false,
          Effect.usb_kill_urb,
          Effect.input_unregister_device,
          Effect.usb_free_urb,
          Effect.usb_free_coherent,
          Effect.kfree ] ∧
      Resources.allLive.run (huion_disconnect interface).2 = some Resources.allReleased) ∧
    (interface.intfdata = false →
      (huion_disconnect interface).2 = [Effect.usb_set_intfdata false] ∧
      ∀ e ∈ (huion_disconnect interface).2, e.isTeardown = false) ∧
    (huion_disconnect interface).1.intfdata = false ∧
    (huion_disconnect (huion_disconnect interface).1).2 = [Effect.usb_set_intfdata false] ∧
    (∀ e ∈ (huion_disconnect (huion_disconnect interface).1).2, e.isTeardown = false) := by
  obtain ⟨n, ep, d⟩ := interface
  cases d <;>
    simp [huion_disconnect, Effect.isTeardown, Resources.run, Resources.step,
      Resources.allLive, Resources.allReleased]

theorem C8_disconnect_order_witness :
    (huion_disconnect attachedInterface).2 =
      [ Effect.usb_set_intfdata false,
        Effect.usb_kill_urb,
        Effect.input_unregister_device,
        Effect.usb_free_urb,
        Effect.usb_free_coherent,
        Effect.kfree ] ∧
    (huion_disconnect tabletInterface).2 = [Effect.usb_set_intfdata false] :=
  ⟨((C8_disconnect_order attachedInterface).1 rfl).1,
   ((C8_disconnect_order tabletInterface).2.1 rfl).1⟩


end Huion
